import Mathlib

/-!
Verification development for the astro-be guarded consultation pipeline.

Shallow embedding of the backend's core, translated from
`backend/app/utils/evaluator.py`, `backend/app/utils/divine_api.py`,
`backend/app/services/chat_agent.py`, `backend/app/routes/chat.py` and
`backend/app/models.py`.  External collaborators (the generation service,
the classification service, the ephemeris computation service, the wall
clock and the third-party fuzzy date parser) are modelled as explicit
oracle parameters; Redis and the relational store are modelled as explicit
state values threaded through the functions.
-/

namespace Astro

/- ------------------------------------------------------------------ -/
/- Python string primitives, modelled over the character list of a
   string (all data handled by the pipeline is ASCII-relevant, matching
   CPython behaviour on that range).                                    -/
/- ------------------------------------------------------------------ -/

/-- Python whitespace recognised by `str.strip()`. -/
def isPySpace (c : Char) : Bool :=
  c == ' ' || c == '\t' || c == '\n' || c == '\r' || c == '\x0b' || c == '\x0c'

/-- `str.strip()`: remove leading and trailing whitespace. -/
def stripChars (cs : List Char) : List Char :=
  ((cs.dropWhile isPySpace).reverse.dropWhile isPySpace).reverse

/-- `str.strip()` on a Lean string. -/
def pyStrip (s : String) : String :=
  ⟨stripChars s.data⟩

/-- `str.upper()` (ASCII range, as exercised by the verdict tokens). -/
def pyUpper (s : String) : String :=
  ⟨s.data.map Char.toUpper⟩

/-- `str.lower()` (ASCII range, as exercised by the denylist keywords). -/
def pyLower (s : String) : String :=
  ⟨s.data.map Char.toLower⟩

/-- Substring containment over character lists: `needle` occurs
contiguously somewhere in the scanned list.  Models Python's
`needle in haystack` on strings. -/
def charsContains (needle : List Char) : List Char → Bool
  | [] => needle.isEmpty
  | c :: rest => needle.isPrefixOf (c :: rest) || charsContains needle rest

/-- Python `needle in haystack` for strings. -/
def strContains (haystack needle : String) : Bool :=
  charsContains needle.data haystack.data

/- ------------------------------------------------------------------ -/
/- External services (oracles).                                        -/
/- ------------------------------------------------------------------ -/

/-- The two generative external services consumed by the pipeline, as
oracles from the full prompt text to the raw returned text (already the
`response.candidates[0].content.parts[0].text` payload). -/
structure Services where
  classify : String → String
  generate : String → String

/- ------------------------------------------------------------------ -/
/- evaluator.py: input/output guardrails.                              -/
/- ------------------------------------------------------------------ -/

def BLOCKED_KEYWORDS : List String :=
  ["suicide", "kill", "murder", "terrorism", "illegal",
   "hack", "weapon", "drugs", "lottery", "diagnosis"]

def ALLOWED_AREAS : List String :=
  ["career", "job", "promotion", "demotion", "startup",
   "marriage", "relationship", "children", "pregnancy",
   "family", "finance", "wealth", "income", "business",
   "education", "future", "health", "success", "failure",
   "spirituality", "remedies", "guidance", "fortune"]

/-- `keyword_block`: block if the lowercased query contains an unsafe
keyword. -/
def keyword_block (query : String) : Bool :=
  BLOCKED_KEYWORDS.any (fun word => strContains (pyLower query) word)

/-- The system prompt of the input guardrail classifier call. -/
def querySystemPrompt : String :=
  "\n    You are a safety evaluator for an AI astrologer chatbot.\n    Rules:\n    - If about suicide, self-harm, terrorism, illegal activity, hacking, or drugs → UNSAFE.\n    - If asking for medical diagnosis or lottery prediction → UNSAFE.\n    - If related to career, marriage, children, relationships, finance, family, spirituality, remedies, or astrology → SAFE.\n    Respond only with SAFE or UNSAFE.\n    "

/-- The text sent to the classification service by `evaluate_query`. -/
def queryClassifierInput (query : String) : String :=
  querySystemPrompt ++ "\n\nQuery: " ++ query

/-- `evaluate_query`: input admission.  Returns the admission verdict
together with the number of classification-service calls made
(instrumentation of the embedding; the source returns only the Bool). -/
def evaluate_query (svc : Services) (query : String) : Bool × Nat :=
  if keyword_block query then (false, 0)
  else
    let verdict := pyUpper (pyStrip (svc.classify (queryClassifierInput query)))
    (verdict == "SAFE", 1)

/-- The text sent to the classification service by `evaluate_output`. -/
def outputClassifierInput (answer : String) : String :=
  "\n    You are an evaluator. Judge if the following response is a valid astrology-based answer.\n\n    Rules:\n    - Must reference Grahas (planets), Rashis (signs), Bhavas (houses), or Dasha/Antardasha periods.\n    - Cannot be generic like \"Good times ahead\".\n    - Must be rooted in astrology logic, not vague advice.\n\n    Response:\n    " ++ answer ++ "\n\n    Reply with SAFE or UNSAFE only.\n    "

/-- `evaluate_output`: output admission.  Returns the verdict together
with the number of classification-service calls made. -/
def evaluate_output (svc : Services) (answer : String) : Bool × Nat :=
  let verdict := pyUpper (pyStrip (svc.classify (outputClassifierInput answer)))
  (verdict == "SAFE", 1)

/- ------------------------------------------------------------------ -/
/- Calendar dates (proleptic Gregorian, as used by datetime.date).     -/
/- ------------------------------------------------------------------ -/

structure Date where
  year : Nat
  month : Nat
  day : Nat
deriving DecidableEq

/-- Day serial number of a civil date (valid for year ≥ 1), following the
standard civil-from-days construction; matches Python `datetime` day
arithmetic on the dates the pipeline handles. -/
def days_from_civil (dt : Date) : Nat :=
  let y := dt.year - (if dt.month ≤ 2 then 1 else 0)
  let era := y / 400
  let yoe := y - era * 400
  let mp := if 2 < dt.month then dt.month - 3 else dt.month + 9
  let doy := (153 * mp + 2) / 5 + dt.day - 1
  let doe := yoe * 365 + yoe / 4 - yoe / 100 + doy
  era * 146097 + doe

/-- Inverse of `days_from_civil`. -/
def civil_from_days (z : Nat) : Date :=
  let era := z / 146097
  let doe := z % 146097
  let yoe := (doe - doe / 1460 + doe / 36524 - doe / 146096) / 365
  let y := yoe + era * 400
  let doy := doe - (365 * yoe + yoe / 4 - yoe / 100)
  let mp := (5 * doy + 2) / 153
  let d := doy - (153 * mp + 2) / 5 + 1
  let m := if mp < 10 then mp + 3 else mp - 9
  ⟨y + (if m ≤ 2 then 1 else 0), m, d⟩

/-- `date + timedelta(days = n)`. -/
def addDays (dt : Date) (n : Nat) : Date :=
  civil_from_days (days_from_civil dt + n)

def pad2 (n : Nat) : String :=
  if n < 10 then "0" ++ toString n else toString n

def pad4 (n : Nat) : String :=
  if n < 10 then "000" ++ toString n
  else if n < 100 then "00" ++ toString n
  else if n < 1000 then "0" ++ toString n
  else toString n

/-- `strftime("%Y-%m-%d")`. -/
def strftimeYmd (dt : Date) : String :=
  pad4 dt.year ++ "-" ++ pad2 dt.month ++ "-" ++ pad2 dt.day

/- ------------------------------------------------------------------ -/
/- The relative-offset pattern search of extract_reference_date:
   re.search over the lowercased query.  The alternatives are tried in
   the pattern's order; the trailing optional "s" does not affect the
   captured unit.                                                      -/
/- ------------------------------------------------------------------ -/

/-- Greedy run of decimal digits, returning their values and the rest. -/
def takeDigits : List Char → List Nat × List Char
  | [] => ([], [])
  | c :: rest =>
    if c.isDigit then
      let (ds, r) := takeDigits rest
      ((c.toNat - 48) :: ds, r)
    else ([], c :: rest)

def digitsToNat (ds : List Nat) : Nat :=
  ds.foldl (fun a d => a * 10 + d) 0

/-- The unit alternation of the pattern, in source order. -/
def matchUnit (cs : List Char) : Option String :=
  if List.isPrefixOf "day".data cs then some "day"
  else if List.isPrefixOf "week".data cs then some "week"
  else if List.isPrefixOf "month".data cs then some "month"
  else if List.isPrefixOf "year".data cs then some "year"
  else none

/-- Match the whole pattern at the current position: the literal
"next ", one or more digits, a space, and a unit. -/
def matchRelAt (cs : List Char) : Option (Nat × String) :=
  if List.isPrefixOf "next ".data cs then
    let afterNext := cs.drop 5
    let (ds, afterDigits) := takeDigits afterNext
    if ds.isEmpty then none
    else
      match afterDigits with
      | ' ' :: afterSpace =>
        match matchUnit afterSpace with
        | some u => some (digitsToNat ds, u)
        | none => none
      | _ => none
  else none

/-- Leftmost match of the relative pattern, as `re.search` finds it. -/
def searchRel : List Char → Option (Nat × String)
  | [] => none
  | c :: rest =>
    match matchRelAt (c :: rest) with
    | some r => some r
    | none => searchRel rest

/- ------------------------------------------------------------------ -/
/- extract_reference_date.                                             -/
/- ------------------------------------------------------------------ -/

/-- Oracle for `dateutil.parser.parse(query, fuzzy=True, default=today)`:
the civil date of the parsed result, or `none` when the parser raises
(the source swallows the exception). -/
def FuzzyParser : Type :=
  String → Date → Option Date

/-- The relative-expression branch of `extract_reference_date`. -/
def relativeReference (query : String) (today : Date) : Option String :=
  match searchRel (pyLower query).data with
  | some (num, unit) =>
    let ref :=
      if unit == "day" then addDays today num
      else if unit == "week" then addDays today (7 * num)
      else if unit == "month" then addDays today (num * 30)
      else if unit == "year" then addDays today (num * 365)
      else today
    some (strftimeYmd ref)
  | none => none

/-- `extract_reference_date`: first the fuzzy explicit-date parse (kept
only when it differs from today), then the relative pattern, else
nothing. -/
def extract_reference_date (fuzzy : FuzzyParser) (query : String) (today : Date) :
    Option String :=
  match fuzzy query today with
  | some parsed =>
    if parsed ≠ today then some (strftimeYmd parsed)
    else relativeReference query today
  | none => relativeReference query today

/- ------------------------------------------------------------------ -/
/- models.py: the rows the pipeline touches.                           -/
/- ------------------------------------------------------------------ -/

/-- The `Profile` row fields read by the pipeline.  The float columns and
the opaque JSON fact blobs are carried as their serialized text. -/
structure Profile where
  id : String
  full_name : String
  date_of_birth : Date
  birth_time : Option (Nat × Nat)
  gender : Option String
  birth_place_name : String
  birth_lat : String
  birth_lon : String
  birth_tz : String
  planetary_positions : Option String
  dasha_details : Option String
deriving DecidableEq

/-- A `ChatMessage` row: sender is "user" or "agent"; `created_at` is the
wall-clock reading (an abstract instant) taken when the row is written. -/
structure ChatMessageRec where
  session_id : String
  sender : String
  message : String
  created_at : Nat
deriving DecidableEq

/- ------------------------------------------------------------------ -/
/- divine_api.py: the Fact Resolver.                                   -/
/- ------------------------------------------------------------------ -/

/-- One response of the external computation service: HTTP status code
and the `.json()` payload (opaque, carried as text). -/
structure DivineResponse where
  status_code : Nat
  body : String
deriving DecidableEq

/-- The external computation service, as response oracles indexed by the
request payload; one endpoint per fact half. -/
structure DivineEnv where
  planetaryResponse : List (String × String) → DivineResponse
  dashaResponse : List (String × String) → DivineResponse

/-- The combined fact document built and cached by the resolver. -/
structure FactsResult where
  planetary_positions : Option String
  dasha_details : Option String
deriving DecidableEq

/-- A cache entry with its absolute expiry instant (seconds). -/
structure CacheEntry (α : Type) where
  value : α
  expiresAt : Nat
deriving DecidableEq

/-- Redis `GET`: a value is returned only while unexpired. -/
def redisGet {α : Type} (entry : Option (CacheEntry α)) (now : Nat) : Option α :=
  match entry with
  | some e => if now < e.expiresAt then some e.value else none
  | none => none

/-- The form payload built from the profile's birth attributes. -/
def divinePayload (api_key : String) (p : Profile) : List (String × String) :=
  [("api_key", api_key),
   ("full_name", p.full_name),
   ("day", toString p.date_of_birth.day),
   ("month", toString p.date_of_birth.month),
   ("year", toString p.date_of_birth.year),
   ("hour", toString (match p.birth_time with | some t => t.1 | none => 0)),
   ("min", toString (match p.birth_time with | some t => t.2 | none => 0)),
   ("sec", "0"),
   ("gender", pyLower (match p.gender with | some g => g | none => "")),
   ("place", p.birth_place_name),
   ("lat", p.birth_lat),
   ("lon", p.birth_lon),
   ("tzone", p.birth_tz),
   ("lan", "en"),
   ("dasha_type", "antar-dasha")]

/-- Result of one resolver run: the returned document, the cache entry
for `astro:{profile.id}` afterwards, and the number of calls made to the
external computation service. -/
structure FetchOutcome where
  result : FactsResult
  cacheAfter : Option (CacheEntry FactsResult)
  apiCalls : Nat
deriving DecidableEq

/-- `fetch_divine_data`: cache-aside resolve of the profile's facts.
`cache` is the entry currently stored under `astro:{profile.id}` and
`now` the instant of the run. -/
def fetch_divine_data (env : DivineEnv) (api_key : String) (profile : Profile)
    (cache : Option (CacheEntry FactsResult)) (now : Nat) : FetchOutcome :=
  match redisGet cache now with
  | some cached => ⟨cached, cache, 0⟩
  | none =>
    let payload := divinePayload api_key profile
    let planetary := env.planetaryResponse payload
    let dasha := env.dashaResponse payload
    let result : FactsResult :=
      { planetary_positions :=
          if planetary.status_code == 200 then some planetary.body else none
        dasha_details :=
          if dasha.status_code == 200 then some dasha.body else none }
    ⟨result, some ⟨result, now + 21600⟩, 2⟩

/- ------------------------------------------------------------------ -/
/- chat_agent.py: prompts and context assembly.                        -/
/- ------------------------------------------------------------------ -/

/-- `SYSTEM_PROMPT` after `.format(reference_date=...)`: the primary
instruction variant. -/
def SYSTEM_PROMPT (reference_date : String) : String :=
  "\nYou are a highly knowledgeable and empathetic Indian Vedic astrologer.\n\nRules:\n- STRICTLY use planetary positions and Dasha/Antardasha from profile data.\n- If user specifies timeframe (e.g. \"next 2 weeks\" or \"January 2026\"), use that as reference date.\n- If no date is specified, default to TODAY: " ++ reference_date ++ ".\n- Do NOT invent dates. Use saved dasha periods to explain timing.\n- Must explain using Grahas (planets), Rashis (signs), Bhavas (houses), and Dashas.\n- Adjust tone to user emotion:\n  - If query sounds worried, answer with reassurance + remedies.\n  - If query is happy, bless them warmly.\n  - If query is neutral, respond factually but kindly.\n- End with a concise summary (≤3 lines).\n"

/-- `FALLBACK_PROMPT` after `.format(reference_date=...)`: the strict
instruction variant used only on the retry. -/
def FALLBACK_PROMPT (reference_date : String) : String :=
  "\nYou are a strict Vedic astrologer. \nAnswer ONLY with Graha, Bhava, and Dasha/Antardasha logic from provided data.\nBase analysis on reference date: " ++ reference_date ++ ".\nDo not provide vague, generic advice.\n"

/-- Serialization of a time-of-day column, as `str()` renders it inside
the f-string (None when absent). -/
def birthTimeText (t : Option (Nat × Nat)) : String :=
  match t with
  | some tv => pad2 tv.1 ++ ":" ++ pad2 tv.2 ++ ":00"
  | none => "None"

/-- The profile summary block of the prompt. -/
def profile_context (p : Profile) : String :=
  "\n    Name: " ++ p.full_name ++ "\n    DOB: " ++ strftimeYmd p.date_of_birth
  ++ ", Time: " ++ birthTimeText p.birth_time
  ++ "\n    Place: " ++ p.birth_place_name ++ " (Lat: " ++ p.birth_lat
  ++ ", Lon: " ++ p.birth_lon ++ ", TZ: " ++ p.birth_tz ++ ")\n    "

/-- `json.dumps` of an opaque fact blob (null when absent). -/
def jsonDumpsOpt (v : Option String) : String :=
  match v with
  | some s => s
  | none => "null"

/-- One deserialized entry of the `chat:messages:{session.id}` Redis
list. -/
structure CachedTurn where
  role : String
  content : String
deriving DecidableEq

/-- The serialized chat-history block: one `role: content` line per
cached turn. -/
def chatHistoryText (cacheList : List CachedTurn) : String :=
  String.intercalate "\n" (cacheList.map (fun m => m.role ++ ": " ++ m.content))

/-- `build_prompt`: fixed-order concatenation of the instruction block,
profile summary, serialized facts, history, and the query. -/
def build_prompt (p : Profile) (chat_history_text reference_date query : String)
    (base_prompt : String → String) : String :=
  "\n" ++ base_prompt reference_date
  ++ "\n\n### User Profile\n" ++ profile_context p
  ++ "\n\n### Planetary Positions\n" ++ jsonDumpsOpt p.planetary_positions
  ++ "\n\n### Dasha Details\n" ++ jsonDumpsOpt p.dasha_details
  ++ "\n\n### Chat History\n" ++ chat_history_text
  ++ "\n\n### User Query\n" ++ query ++ "\n"

/-- Step 3 of `generate_response`: the resolved reference date, the
extracted date when present and today's date otherwise. -/
def resolvedReferenceDate (fuzzy : FuzzyParser) (query : String) (today : Date) : String :=
  match extract_reference_date fuzzy query today with
  | some d => d
  | none => strftimeYmd today

/- ------------------------------------------------------------------ -/
/- chat_agent.py: the guarded generation state machine.                -/
/- ------------------------------------------------------------------ -/

/-- The primary-variant generation result (Step 5), stripped. -/
def primary_answer (svc : Services) (fuzzy : FuzzyParser) (p : Profile)
    (query : String) (today : Date) (cacheList : List CachedTurn) : String :=
  pyStrip (svc.generate (build_prompt p (chatHistoryText cacheList)
    (resolvedReferenceDate fuzzy query today) query SYSTEM_PROMPT))

/-- The strict-variant retry generation result, stripped. -/
def strict_answer (svc : Services) (fuzzy : FuzzyParser) (p : Profile)
    (query : String) (today : Date) (cacheList : List CachedTurn) : String :=
  pyStrip (svc.generate (build_prompt p (chatHistoryText cacheList)
    (resolvedReferenceDate fuzzy query today) query FALLBACK_PROMPT))

/-- The deterministic template fallback answer. -/
def fallbackAnswer (reference_date : String) : String :=
  "🙏 Based on your planetary positions and Dasha periods as of " ++ reference_date
  ++ ", the influences are mixed. I suggest patience, discipline, and spiritual remedies. "
  ++ "Would you like me to analyze your Antardasha in more detail for this period?"

/-- One guarded generation attempt sequence: the produced answer, the
number of generation-service calls, and the number of output-admission
evaluator runs. -/
structure GenAttempt where
  answer : String
  genCalls : Nat
  outputEvals : Nat
deriving DecidableEq

/-- Steps 5–6 of `generate_response`: primary attempt, output guardrail,
at most one strict retry, then the template fallback (returned without a
further evaluator run). -/
def orchestrate (svc : Services) (fuzzy : FuzzyParser) (p : Profile)
    (query : String) (today : Date) (cacheList : List CachedTurn) : GenAttempt :=
  let a1 := primary_answer svc fuzzy p query today cacheList
  if (evaluate_output svc a1).1 then ⟨a1, 1, 1⟩
  else
    let a2 := strict_answer svc fuzzy p query today cacheList
    if (evaluate_output svc a2).1 then ⟨a2, 2, 2⟩
    else ⟨fallbackAnswer (resolvedReferenceDate fuzzy query today), 2, 2⟩

/- ------------------------------------------------------------------ -/
/- Transcript store state and the dual write (Steps 7–8).              -/
/- ------------------------------------------------------------------ -/

/-- The state touched by one session's pipeline: the durable
`chat_messages` rows, the Redis recency list for the session key, and the
time-to-live most recently set on that key (none if never set). -/
structure AgentState where
  log : List ChatMessageRec
  cacheList : List CachedTurn
  cacheTTL : Option Nat
deriving DecidableEq

def emptyState : AgentState :=
  ⟨[], [], none⟩

/-- Steps 7–8 of `generate_response`: append the user row then the agent
row to the durable log (with their respective clock readings), push both
serialized turns onto the Redis list, and reset the key's expiry to the
fixed 30-day window. -/
def persist (sessionId query answer : String) (tUser tAgent : Nat)
    (st : AgentState) : AgentState :=
  { log := st.log ++ [⟨sessionId, "user", query, tUser⟩, ⟨sessionId, "agent", answer, tAgent⟩]
    cacheList := st.cacheList ++ [⟨"user", query⟩, ⟨"agent", answer⟩]
    cacheTTL := some (60 * 60 * 24 * 30) }

/-- Step 2 of `generate_response`: the history read, an `LRANGE key 0 -1`
over the recency cache only. -/
def pipelineHistory (st : AgentState) : List CachedTurn :=
  st.cacheList

/-- The durable log's turns rendered in the cache's shape. -/
def logAsTurns (log : List ChatMessageRec) : List CachedTurn :=
  log.map (fun m => ⟨m.sender, m.message⟩)

/-- Modelled from the spec: the history read contract the specification
states — prefer the cache when non-empty and fall back to the durable
log when the cache entry is absent or expired.  Stated for comparison
with `pipelineHistory`, the read the source actually performs. -/
def historySpecRead (st : AgentState) : List CachedTurn :=
  if st.cacheList.isEmpty then logAsTurns st.log else st.cacheList

/-- Result of one `generate_response` run: the returned answer, the state
afterwards, and instrumentation counters for the external calls. -/
structure GenOutcome where
  answer : String
  state : AgentState
  genCalls : Nat
  queryClassifierCalls : Nat
  outputEvals : Nat
deriving DecidableEq

/-- `generate_response`: the full pipeline run for one query.  `today` is
the civil date of the run's clock readings; `tUser` and `tAgent` are the
consecutive clock readings taken for the two persisted rows. -/
def generate_response (svc : Services) (fuzzy : FuzzyParser) (sessionId : String)
    (p : Profile) (query : String) (today : Date) (tUser tAgent : Nat)
    (st : AgentState) : GenOutcome :=
  if (evaluate_query svc query).1 then
    let att := orchestrate svc fuzzy p query today st.cacheList
    ⟨att.answer, persist sessionId query att.answer tUser tAgent st,
      att.genCalls, (evaluate_query svc query).2, att.outputEvals⟩
  else
    ⟨"🚫 Sorry, I cannot answer this type of query.", st, 0,
      (evaluate_query svc query).2, 0⟩

/-- The fixed refusal message of the input guardrail. -/
def REFUSAL : String :=
  "🚫 Sorry, I cannot answer this type of query."

/- ------------------------------------------------------------------ -/
/- Repeated exchanges and the ordered read of the durable log.         -/
/- ------------------------------------------------------------------ -/

/-- Run `persist` over a list of (query, answer) exchanges; exchange `i`
takes its two row timestamps from clock readings `2*i` and `2*i+1`. -/
def run_exchanges (sessionId : String) (clock : Nat → Nat) :
    AgentState → Nat → List (String × String) → AgentState
  | st, _, [] => st
  | st, i, (q, a) :: rest =>
    run_exchanges sessionId clock
      (persist sessionId q a (clock (2 * i)) (clock (2 * i + 1)) st) (i + 1) rest

/-- The durable-log fragment produced by a run of exchanges starting at
clock index `2*i`. -/
def exchangeRows (sessionId : String) (clock : Nat → Nat) :
    Nat → List (String × String) → List ChatMessageRec
  | _, [] => []
  | i, (q, a) :: rest =>
    ⟨sessionId, "user", q, clock (2 * i)⟩ :: ⟨sessionId, "agent", a, clock (2 * i + 1)⟩ ::
      exchangeRows sessionId clock (i + 1) rest

/-- An `ORDER BY created_at ASC` read of the durable log: any reordering
of the rows that is non-decreasing in `created_at` (ties are returned in
an order the store does not specify). -/
def ordered_read (log res : List ChatMessageRec) : Prop :=
  res.Perm log ∧ res.Pairwise (fun a b => a.created_at ≤ b.created_at)

/-- The Redis-list turns produced by a list of exchanges. -/
def cacheTurns (xs : List (String × String)) : List CachedTurn :=
  (xs.map (fun qa => [⟨"user", qa.1⟩, ⟨"agent", qa.2⟩])).flatten

/- ------------------------------------------------------------------ -/
/- Concrete sample inputs used to exercise the definitions.            -/
/- ------------------------------------------------------------------ -/

/-- A fuzzy-parser oracle that finds no explicit date anywhere (the
parser raises, which the source swallows). -/
def noFuzzy : FuzzyParser :=
  fun _ _ => none

/-- Model of `dateutil.parser.parse(query, fuzzy=True, default=today)` on
the scenario query "Will I get a promotion next 2 weeks?": the fuzzy
tokenizer skips the non-date words but consumes the bare numeral token
"2" and resolves it as a day-of-month, leaving month and year at the
default, so the parse succeeds with day 2 of the default month/year
instead of raising. -/
def dateutilPromotionFuzzy : FuzzyParser :=
  fun query today =>
    if query = "Will I get a promotion next 2 weeks?" then
      some ⟨today.year, today.month, 2⟩
    else none

/-- External services whose classifier admits everything and whose
generator returns a fixed grounded answer. -/
def svcAllSafe : Services :=
  ⟨fun _ => "SAFE", fun _ => "Jupiter in the 10th Bhava favors growth."⟩

/-- A concrete birth profile. -/
def sampleProfile : Profile :=
  ⟨"p1", "Asha Rao", ⟨1990, 5, 17⟩, some (6, 30), some "female", "Pune",
   "18.52", "73.86", "5.5", some "planetary-blob", some "dasha-blob"⟩

/-- A computation-service environment with one half succeeding and one
half failing. -/
def envMixed : DivineEnv :=
  ⟨fun _ => ⟨200, "positions-doc"⟩, fun _ => ⟨500, "error-doc"⟩⟩

/-- A computation-service environment with both halves failing. -/
def envDown : DivineEnv :=
  ⟨fun _ => ⟨503, "unavailable"⟩, fun _ => ⟨500, "error-doc"⟩⟩

/-- A session state whose durable log holds one full exchange while the
recency-cache entry has been evicted. -/
def evictedState : AgentState :=
  ⟨[⟨"s1", "user", "hi", 0⟩, ⟨"s1", "agent", "Saturn transit favors patience.", 1⟩],
   [], none⟩

/- ================================================================== -/
/- Helper lemmas.                                                      -/
/- ================================================================== -/

theorem charsContains_of_isPrefixOf {n1 n2 : List Char}
    (hp : List.isPrefixOf n1 n2 = true) :
    ∀ {hay : List Char}, charsContains n2 hay = true → charsContains n1 hay = true := by
  intro hay
  induction hay with
  | nil =>
    intro hc
    simp only [charsContains, List.isEmpty_iff] at hc ⊢
    subst hc
    exact List.prefix_nil.mp (List.isPrefixOf_iff_prefix.mp hp)
  | cons c rest ih =>
    intro hc
    simp only [charsContains, Bool.or_eq_true] at hc ⊢
    rcases hc with h | h
    · exact Or.inl (List.isPrefixOf_iff_prefix.mpr
        ((List.isPrefixOf_iff_prefix.mp hp).trans (List.isPrefixOf_iff_prefix.mp h)))
    · exact Or.inr (ih h)

theorem strContains_of_isPrefixOf {s w1 w2 : String}
    (hp : List.isPrefixOf w1.data w2.data = true)
    (h : strContains s w2 = true) : strContains s w1 = true :=
  charsContains_of_isPrefixOf hp h

theorem keyword_block_of_contains {q w : String} (hw : w ∈ BLOCKED_KEYWORDS)
    (hc : strContains (pyLower q) w = true) : keyword_block q = true := by
  simp only [keyword_block, List.any_eq_true]
  exact ⟨w, hw, hc⟩

/- ================================================================== -/
/- Claim theorems.                                                     -/
/- ================================================================== -/

/-- C3: a query whose lowercased text contains a denylist keyword — in
particular any query containing "lottery numbers" — is rejected by
`evaluate_query` with zero calls to the classification service. -/
theorem evaluate_query_denylist_short_circuit (svc : Services) (q : String)
    (h : (∃ w ∈ BLOCKED_KEYWORDS, strContains (pyLower q) w = true)
        ∨ strContains (pyLower q) "lottery numbers" = true) :
    evaluate_query svc q = (false, 0) := by
  have hkb : keyword_block q = true := by
    rcases h with ⟨w, hw, hc⟩ | h
    · exact keyword_block_of_contains hw hc
    · exact keyword_block_of_contains (by decide)
        (@strContains_of_isPrefixOf (pyLower q) "lottery" "lottery numbers" (by decide) h)
  simp [evaluate_query, hkb]

theorem evaluate_query_denylist_short_circuit_witness :
    ((∃ w ∈ BLOCKED_KEYWORDS,
        strContains (pyLower "Pick my lottery numbers for me") w = true)
      ∨ strContains (pyLower "Pick my lottery numbers for me") "lottery numbers" = true)
    ∧ evaluate_query svcAllSafe "Pick my lottery numbers for me" = (false, 0) :=
  ⟨by decide,
   evaluate_query_denylist_short_circuit svcAllSafe "Pick my lottery numbers for me"
     (by decide)⟩

/-- C4: past the keyword gate, `evaluate_query` admits exactly when the
classifier's stripped, uppercased verdict is the token SAFE, and
`evaluate_output` likewise; every other returned text — malformed or not
— yields rejection (fail-closed). -/
theorem admission_fail_closed (svc : Services) (q a : String)
    (hq : keyword_block q = false) :
    ((evaluate_query svc q).1 = true ↔
      pyUpper (pyStrip (svc.classify (queryClassifierInput q))) = "SAFE")
    ∧ ((evaluate_output svc a).1 = true ↔
      pyUpper (pyStrip (svc.classify (outputClassifierInput a))) = "SAFE") := by
  constructor
  · simp [evaluate_query, hq]
  · simp [evaluate_output]

theorem admission_fail_closed_witness :
    keyword_block "Will my career flourish?" = false
    ∧ (((evaluate_query svcAllSafe "Will my career flourish?").1 = true ↔
        pyUpper (pyStrip (svcAllSafe.classify
          (queryClassifierInput "Will my career flourish?"))) = "SAFE")
      ∧ ((evaluate_output svcAllSafe "Good times ahead").1 = true ↔
        pyUpper (pyStrip (svcAllSafe.classify
          (outputClassifierInput "Good times ahead"))) = "SAFE")) :=
  ⟨by decide,
   admission_fail_closed svcAllSafe "Will my career flourish?" "Good times ahead"
     (by decide)⟩

/-- C9: the denylist check is a plain case-insensitive substring match,
so the benign query "How can I improve my skills?" — whose word "skills"
embeds the keyword "kill" — is rejected with zero classification-service
calls. -/
theorem keyword_block_substring_overreach :
    strContains (pyLower "How can I improve my skills?") "kill" = true
    ∧ ∀ svc : Services, evaluate_query svc "How can I improve my skills?" = (false, 0) := by
  constructor
  · decide
  · intro svc
    have hkb : keyword_block "How can I improve my skills?" = true := by decide
    simp [evaluate_query, hkb]

/-- C2: a query failing input admission makes `generate_response` return
the fixed refusal immediately: no generation call, no output evaluation,
and the durable log, the recency cache and its expiry all unchanged. -/
theorem generate_response_refusal (svc : Services) (fuzzy : FuzzyParser)
    (sessionId : String) (p : Profile) (query : String) (today : Date)
    (tUser tAgent : Nat) (st : AgentState)
    (h : (evaluate_query svc query).1 = false) :
    generate_response svc fuzzy sessionId p query today tUser tAgent st =
      ⟨REFUSAL, st, 0, (evaluate_query svc query).2, 0⟩ := by
  simp [generate_response, h, REFUSAL]

theorem generate_response_refusal_witness :
    (evaluate_query svcAllSafe "teach me to hack a bank").1 = false
    ∧ generate_response svcAllSafe noFuzzy "s1" sampleProfile "teach me to hack a bank"
        ⟨2025, 1, 1⟩ 0 1 emptyState =
      ⟨REFUSAL, emptyState, 0, (evaluate_query svcAllSafe "teach me to hack a bank").2, 0⟩ :=
  ⟨by decide,
   generate_response_refusal svcAllSafe noFuzzy "s1" sampleProfile
     "teach me to hack a bank" ⟨2025, 1, 1⟩ 0 1 emptyState (by decide)⟩

/-- C8: on the query "Will I get a promotion next 2 weeks?" with
now = 2025-01-01, the fuzzy explicit-date pre-parse picks up the bare
numeral "2" as a day-of-month, so `extract_reference_date` returns
"2025-01-02" instead of the documented relative-branch result; the
relative branch itself (reached only when the fuzzy parse finds nothing
distinguishable from today) does return "2025-01-15" as the claim
states. -/
theorem extract_reference_date_next_two_weeks :
    extract_reference_date dateutilPromotionFuzzy
        "Will I get a promotion next 2 weeks?" ⟨2025, 1, 1⟩ = some "2025-01-02"
    ∧ relativeReference "Will I get a promotion next 2 weeks?" ⟨2025, 1, 1⟩
        = some "2025-01-15"
    ∧ extract_reference_date noFuzzy
        "Will I get a promotion next 2 weeks?" ⟨2025, 1, 1⟩ = some "2025-01-15" := by
  refine ⟨by decide, by decide, by decide⟩

/-- C5: `fetch_divine_data` is cache-aside: a hit returns the cached
value with zero external calls and leaves the cache unchanged; a miss
makes exactly two external calls, maps a non-success half to null, and
caches the combined result with the fixed 6-hour expiry; a second
resolve within that window after a miss makes zero further calls and
returns the same result. -/
theorem fetch_divine_data_cache_aside (env : DivineEnv) (api_key : String)
    (p : Profile) (cache : Option (CacheEntry FactsResult)) (now t2 : Nat) :
    (∀ v, redisGet cache now = some v →
      fetch_divine_data env api_key p cache now = ⟨v, cache, 0⟩)
    ∧ (redisGet cache now = none →
      fetch_divine_data env api_key p cache now =
        ⟨⟨if (env.planetaryResponse (divinePayload api_key p)).status_code == 200
            then some (env.planetaryResponse (divinePayload api_key p)).body else none,
          if (env.dashaResponse (divinePayload api_key p)).status_code == 200
            then some (env.dashaResponse (divinePayload api_key p)).body else none⟩,
         some ⟨⟨if (env.planetaryResponse (divinePayload api_key p)).status_code == 200
            then some (env.planetaryResponse (divinePayload api_key p)).body else none,
          if (env.dashaResponse (divinePayload api_key p)).status_code == 200
            then some (env.dashaResponse (divinePayload api_key p)).body else none⟩,
          now + 21600⟩, 2⟩)
    ∧ (redisGet cache now = none → t2 < now + 21600 →
      fetch_divine_data env api_key p
          (fetch_divine_data env api_key p cache now).cacheAfter t2 =
        ⟨(fetch_divine_data env api_key p cache now).result,
         (fetch_divine_data env api_key p cache now).cacheAfter, 0⟩) := by
  refine ⟨?_, ?_, ?_⟩
  · intro v hv
    simp [fetch_divine_data, hv]
  · intro hmiss
    simp [fetch_divine_data, hmiss]
  · intro hmiss ht
    simp only [fetch_divine_data, hmiss]
    simp [redisGet, ht]

theorem fetch_divine_data_cache_aside_witness :
    redisGet (α := FactsResult) none 0 = none
    ∧ (redisGet (α := FactsResult) none 0 = none →
      fetch_divine_data envMixed "k" sampleProfile none 0 =
        ⟨⟨if (envMixed.planetaryResponse (divinePayload "k" sampleProfile)).status_code == 200
            then some (envMixed.planetaryResponse (divinePayload "k" sampleProfile)).body else none,
          if (envMixed.dashaResponse (divinePayload "k" sampleProfile)).status_code == 200
            then some (envMixed.dashaResponse (divinePayload "k" sampleProfile)).body else none⟩,
         some ⟨⟨if (envMixed.planetaryResponse (divinePayload "k" sampleProfile)).status_code == 200
            then some (envMixed.planetaryResponse (divinePayload "k" sampleProfile)).body else none,
          if (envMixed.dashaResponse (divinePayload "k" sampleProfile)).status_code == 200
            then some (envMixed.dashaResponse (divinePayload "k" sampleProfile)).body else none⟩,
          0 + 21600⟩, 2⟩)
    ∧ (redisGet (α := FactsResult) none 0 = none → 100 < 0 + 21600 →
      fetch_divine_data envMixed "k" sampleProfile
          (fetch_divine_data envMixed "k" sampleProfile none 0).cacheAfter 100 =
        ⟨(fetch_divine_data envMixed "k" sampleProfile none 0).result,
         (fetch_divine_data envMixed "k" sampleProfile none 0).cacheAfter, 0⟩) :=
  ⟨rfl,
   (fetch_divine_data_cache_aside envMixed "k" sampleProfile none 0 100).2.1,
   (fetch_divine_data_cache_aside envMixed "k" sampleProfile none 0 100).2.2⟩

/-- C10: when both external fact calls fail on a cache miss, the
resolver still caches the all-null result under the same 6-hour expiry,
and any resolve within that window returns the all-null result with zero
further external calls. -/
theorem fetch_divine_data_negative_cache (env : DivineEnv) (api_key : String)
    (p : Profile) (cache : Option (CacheEntry FactsResult)) (now t2 : Nat)
    (hmiss : redisGet cache now = none)
    (hp : (env.planetaryResponse (divinePayload api_key p)).status_code ≠ 200)
    (hd : (env.dashaResponse (divinePayload api_key p)).status_code ≠ 200) :
    fetch_divine_data env api_key p cache now =
      ⟨⟨none, none⟩, some ⟨⟨none, none⟩, now + 21600⟩, 2⟩
    ∧ (t2 < now + 21600 →
      fetch_divine_data env api_key p (some ⟨⟨none, none⟩, now + 21600⟩) t2 =
        ⟨⟨none, none⟩, some ⟨⟨none, none⟩, now + 21600⟩, 0⟩) := by
  constructor
  · simp [fetch_divine_data, hmiss, hp, hd]
  · intro ht
    simp [fetch_divine_data, redisGet, ht]

theorem fetch_divine_data_negative_cache_witness :
    (redisGet (α := FactsResult) none 7 = none
      ∧ (envDown.planetaryResponse (divinePayload "k" sampleProfile)).status_code ≠ 200
      ∧ (envDown.dashaResponse (divinePayload "k" sampleProfile)).status_code ≠ 200)
    ∧ (fetch_divine_data envDown "k" sampleProfile none 7 =
        ⟨⟨none, none⟩, some ⟨⟨none, none⟩, 7 + 21600⟩, 2⟩
      ∧ (9 < 7 + 21600 →
        fetch_divine_data envDown "k" sampleProfile (some ⟨⟨none, none⟩, 7 + 21600⟩) 9 =
          ⟨⟨none, none⟩, some ⟨⟨none, none⟩, 7 + 21600⟩, 0⟩)) :=
  ⟨⟨by decide, by decide, by decide⟩,
   fetch_divine_data_negative_cache envDown "k" sampleProfile none 7 9
     (by decide) (by decide) (by decide)⟩

/-- C1: for a query passing input admission, `generate_response` returns
exactly one answer: the primary generation if output admission accepts
it; otherwise the single strict-variant retry if a second admission
check accepts it; otherwise the deterministic template fallback
referencing the resolved reference date, with no further evaluator run —
never more than one retry and never an unadmitted model answer — and it
persists exactly the answer it returns. -/
theorem generate_response_guarded_retry (svc : Services) (fuzzy : FuzzyParser)
    (sessionId : String) (p : Profile) (query : String) (today : Date)
    (tUser tAgent : Nat) (st : AgentState)
    (h : (evaluate_query svc query).1 = true) :
    let o := generate_response svc fuzzy sessionId p query today tUser tAgent st
    let a1 := primary_answer svc fuzzy p query today st.cacheList
    let a2 := strict_answer svc fuzzy p query today st.cacheList
    let tmpl := fallbackAnswer (resolvedReferenceDate fuzzy query today)
    ((evaluate_output svc a1).1 = true
        ∧ o.answer = a1 ∧ o.genCalls = 1 ∧ o.outputEvals = 1
      ∨ (evaluate_output svc a1).1 = false ∧ (evaluate_output svc a2).1 = true
        ∧ o.answer = a2 ∧ o.genCalls = 2 ∧ o.outputEvals = 2
      ∨ (evaluate_output svc a1).1 = false ∧ (evaluate_output svc a2).1 = false
        ∧ o.answer = tmpl ∧ o.genCalls = 2 ∧ o.outputEvals = 2)
    ∧ o.state = persist sessionId query o.answer tUser tAgent st := by
  by_cases h1 : (evaluate_output svc (primary_answer svc fuzzy p query today st.cacheList)).1 = true
  · simp [generate_response, orchestrate, h, h1]
  · rw [Bool.not_eq_true] at h1
    by_cases h2 : (evaluate_output svc (strict_answer svc fuzzy p query today st.cacheList)).1 = true
    · simp [generate_response, orchestrate, h, h1, h2]
    · rw [Bool.not_eq_true] at h2
      simp [generate_response, orchestrate, h, h1, h2]

theorem generate_response_guarded_retry_witness :
    (evaluate_query svcAllSafe "Will I get a promotion?").1 = true
    ∧ (let o := generate_response svcAllSafe noFuzzy "s1" sampleProfile
          "Will I get a promotion?" ⟨2025, 1, 1⟩ 3 4 emptyState
       let a1 := primary_answer svcAllSafe noFuzzy sampleProfile
          "Will I get a promotion?" ⟨2025, 1, 1⟩ emptyState.cacheList
       let a2 := strict_answer svcAllSafe noFuzzy sampleProfile
          "Will I get a promotion?" ⟨2025, 1, 1⟩ emptyState.cacheList
       let tmpl := fallbackAnswer (resolvedReferenceDate noFuzzy
          "Will I get a promotion?" ⟨2025, 1, 1⟩)
       ((evaluate_output svcAllSafe a1).1 = true
           ∧ o.answer = a1 ∧ o.genCalls = 1 ∧ o.outputEvals = 1
         ∨ (evaluate_output svcAllSafe a1).1 = false
           ∧ (evaluate_output svcAllSafe a2).1 = true
           ∧ o.answer = a2 ∧ o.genCalls = 2 ∧ o.outputEvals = 2
         ∨ (evaluate_output svcAllSafe a1).1 = false
           ∧ (evaluate_output svcAllSafe a2).1 = false
           ∧ o.answer = tmpl ∧ o.genCalls = 2 ∧ o.outputEvals = 2)
       ∧ o.state = persist "s1" "Will I get a promotion?" o.answer 3 4 emptyState) :=
  ⟨by decide,
   generate_response_guarded_retry svcAllSafe noFuzzy "s1" sampleProfile
     "Will I get a promotion?" ⟨2025, 1, 1⟩ 3 4 emptyState (by decide)⟩

/-- C6 counterexample: for a session whose durable log holds a full
exchange but whose recency-cache entry has been evicted, the pipeline's
history read returns empty history — not a result identical in content
to the durable log, and not the fallback read the specification
describes. -/
theorem pipeline_history_no_log_fallback :
    pipelineHistory evictedState = []
    ∧ logAsTurns evictedState.log ≠ []
    ∧ pipelineHistory evictedState ≠ logAsTurns evictedState.log
    ∧ pipelineHistory evictedState ≠ historySpecRead evictedState :=
  ⟨rfl, by decide, by decide, by decide⟩

/-- C6 (amended): the pipeline's history read consults only the recency
cache — an absent or evicted entry yields empty history, and the durable
log never influences the generated answer — while the durable log's
content is served, completely and only, by the conversation endpoint's
creation-time-ordered read. -/
theorem pipeline_history_cache_only (svc : Services) (fuzzy : FuzzyParser)
    (sessionId : String) (p : Profile) (query : String) (today : Date)
    (tUser tAgent : Nat) (st st' : AgentState)
    (hc : st.cacheList = st'.cacheList) :
    pipelineHistory st = st.cacheList
    ∧ (st.cacheList = [] → pipelineHistory st = [])
    ∧ (generate_response svc fuzzy sessionId p query today tUser tAgent st).answer
        = (generate_response svc fuzzy sessionId p query today tUser tAgent st').answer
    ∧ (∀ res, ordered_read st.log res → (logAsTurns res).Perm (logAsTurns st.log)) := by
  refine ⟨rfl, fun hev => by simp [pipelineHistory, hev], ?_, ?_⟩
  · have horch : orchestrate svc fuzzy p query today st.cacheList
        = orchestrate svc fuzzy p query today st'.cacheList := by rw [hc]
    by_cases hq : (evaluate_query svc query).1 = true
    · simp [generate_response, hq, horch]
    · rw [Bool.not_eq_true] at hq
      simp [generate_response, hq]
  · intro res hres
    simpa [logAsTurns] using hres.1.map (fun m => (⟨m.sender, m.message⟩ : CachedTurn))

theorem pipeline_history_cache_only_witness :
    evictedState.cacheList = emptyState.cacheList
    ∧ (pipelineHistory evictedState = evictedState.cacheList
      ∧ (evictedState.cacheList = [] → pipelineHistory evictedState = [])
      ∧ (generate_response svcAllSafe noFuzzy "s1" sampleProfile
            "Will I get a promotion?" ⟨2025, 1, 1⟩ 3 4 evictedState).answer
          = (generate_response svcAllSafe noFuzzy "s1" sampleProfile
            "Will I get a promotion?" ⟨2025, 1, 1⟩ 3 4 emptyState).answer
      ∧ (∀ res, ordered_read evictedState.log res →
          (logAsTurns res).Perm (logAsTurns evictedState.log))) :=
  ⟨rfl,
   pipeline_history_cache_only svcAllSafe noFuzzy "s1" sampleProfile
     "Will I get a promotion?" ⟨2025, 1, 1⟩ 3 4 evictedState emptyState rfl⟩

/-- C7 counterexample: a pipeline run whose two row timestamps come from
equal consecutive clock readings (the wall clock is monotone but has
finite resolution, so consecutive readings may coincide) persists the
exchange with equal — not strictly increasing — timestamps; the reversed
log is then also a legitimate creation-time-ordered read, placing the
agent turn before its paired user turn. -/
theorem persist_timestamps_not_strict :
    ((generate_response svcAllSafe noFuzzy "s1" sampleProfile
        "Will I get a promotion?" ⟨2025, 1, 1⟩ 5 5 emptyState).state.log.map
      (fun m => (m.sender, m.created_at))) = [("user", 5), ("agent", 5)]
    ∧ ¬ (generate_response svcAllSafe noFuzzy "s1" sampleProfile
        "Will I get a promotion?" ⟨2025, 1, 1⟩ 5 5 emptyState).state.log.Pairwise
      (fun a b => a.created_at < b.created_at)
    ∧ ordered_read
        (generate_response svcAllSafe noFuzzy "s1" sampleProfile
          "Will I get a promotion?" ⟨2025, 1, 1⟩ 5 5 emptyState).state.log
        (generate_response svcAllSafe noFuzzy "s1" sampleProfile
          "Will I get a promotion?" ⟨2025, 1, 1⟩ 5 5 emptyState).state.log.reverse
    ∧ (generate_response svcAllSafe noFuzzy "s1" sampleProfile
        "Will I get a promotion?" ⟨2025, 1, 1⟩ 5 5 emptyState).state.log.reverse
      ≠ (generate_response svcAllSafe noFuzzy "s1" sampleProfile
        "Will I get a promotion?" ⟨2025, 1, 1⟩ 5 5 emptyState).state.log :=
  ⟨by decide, by decide, ⟨List.reverse_perm _, by decide⟩, by decide⟩

theorem run_exchanges_spec (sessionId : String) (clock : Nat → Nat) :
    ∀ (xs : List (String × String)) (st : AgentState) (i : Nat),
      run_exchanges sessionId clock st i xs =
        ⟨st.log ++ exchangeRows sessionId clock i xs,
         st.cacheList ++ cacheTurns xs,
         if xs.isEmpty then st.cacheTTL else some (60 * 60 * 24 * 30)⟩ := by
  intro xs
  induction xs with
  | nil => intro st i; simp [run_exchanges, exchangeRows, cacheTurns]
  | cons qa rest ih =>
    intro st i
    cases qa with
    | mk q a =>
      simp [run_exchanges, ih, persist, exchangeRows, cacheTurns]

theorem exchangeRows_mem_times (sessionId : String) (clock : Nat → Nat) :
    ∀ (xs : List (String × String)) (i : Nat) (m : ChatMessageRec),
      m ∈ exchangeRows sessionId clock i xs →
        ∃ k, 2 * i ≤ k ∧ m.created_at = clock k := by
  intro xs
  induction xs with
  | nil => intro i m hm; simp [exchangeRows] at hm
  | cons qa rest ih =>
    intro i m hm
    cases qa with
    | mk q a =>
      simp only [exchangeRows, List.mem_cons] at hm
      rcases hm with hm | hm | hm
      · exact ⟨2 * i, le_refl _, by rw [hm]⟩
      · exact ⟨2 * i + 1, Nat.le_succ_of_le (le_refl _), by rw [hm]⟩
      · rcases ih (i + 1) m hm with ⟨k, hk, he⟩
        exact ⟨k, by omega, he⟩

theorem exchangeRows_pairwise (sessionId : String) (clock : Nat → Nat)
    (R : Nat → Nat → Prop) (hR : ∀ i j, i < j → R (clock i) (clock j)) :
    ∀ (xs : List (String × String)) (i : Nat),
      (exchangeRows sessionId clock i xs).Pairwise
        (fun a b => R a.created_at b.created_at) := by
  intro xs
  induction xs with
  | nil => intro i; simp [exchangeRows]
  | cons qa rest ih =>
    intro i
    cases qa with
    | mk q a =>
      refine List.Pairwise.cons ?_ (List.Pairwise.cons ?_ (ih (i + 1)))
      · intro b hb
        rcases List.mem_cons.mp hb with hb | hb
        · rw [hb]
          exact hR (2 * i) (2 * i + 1) (by omega)
        · rcases exchangeRows_mem_times sessionId clock rest (i + 1) b hb with ⟨k, hk, he⟩
          rw [he]
          exact hR (2 * i) k (by omega)
      · intro b hb
        rcases exchangeRows_mem_times sessionId clock rest (i + 1) b hb with ⟨k, hk, he⟩
        rw [he]
        exact hR (2 * i + 1) k (by omega)

theorem ordered_read_eq_of_strict {log res : List ChatMessageRec}
    (hlog : log.Pairwise (fun a b => a.created_at < b.created_at))
    (hres : ordered_read log res) : res = log := by
  rcases hres with ⟨hperm, hsorted⟩
  have hmapnodup : (log.map (fun m => m.created_at)).Nodup := by
    rw [List.Nodup, List.pairwise_map]
    exact hlog.imp (fun hab => Nat.ne_of_lt hab)
  have hresnodup : (res.map (fun m => m.created_at)).Nodup :=
    ((hperm.map (fun m => m.created_at)).symm.nodup hmapnodup)
  have hne : res.Pairwise (fun a b => a.created_at ≠ b.created_at) := by
    rw [List.Nodup, List.pairwise_map] at hresnodup
    exact hresnodup
  have hlt : res.Pairwise (fun a b => a.created_at < b.created_at) :=
    (hsorted.and hne).imp (fun hab => lt_of_le_of_ne hab.1 hab.2)
  haveI : IsAntisymm ChatMessageRec (fun a b => a.created_at < b.created_at) :=
    ⟨fun a b h1 h2 => absurd (h1.trans h2) (lt_irrefl _)⟩
  exact List.eq_of_perm_of_sorted hperm hlt hlog

/-- C7 (amended): each appended exchange writes the user turn then the
agent turn to the durable log with the consecutive clock readings as
timestamps, mirrors both turns onto the recency cache, and resets the
cache expiry to the fixed 30-day window; whenever the clock readings are
strictly increasing, the persisted turns of a session are strictly
ordered by creation time — each user message strictly preceding its
paired agent message — and every creation-time-ordered read after N
appended exchanges returns them in exactly append order, user before
agent within each exchange. -/
theorem run_exchanges_ordering (sessionId : String) (clock : Nat → Nat)
    (xs : List (String × String))
    (hclock : ∀ i j, i < j → clock i < clock j) :
    (run_exchanges sessionId clock emptyState 0 xs).log
        = exchangeRows sessionId clock 0 xs
    ∧ (run_exchanges sessionId clock emptyState 0 xs).cacheList = cacheTurns xs
    ∧ (xs ≠ [] →
        (run_exchanges sessionId clock emptyState 0 xs).cacheTTL
          = some (60 * 60 * 24 * 30))
    ∧ (run_exchanges sessionId clock emptyState 0 xs).log.Pairwise
        (fun a b => a.created_at < b.created_at)
    ∧ (∀ res, ordered_read (run_exchanges sessionId clock emptyState 0 xs).log res →
        res = (run_exchanges sessionId clock emptyState 0 xs).log) := by
  have hspec := run_exchanges_spec sessionId clock xs emptyState 0
  have hlog : (run_exchanges sessionId clock emptyState 0 xs).log
      = exchangeRows sessionId clock 0 xs := by
    rw [hspec]; simp [emptyState]
  have hpw : (run_exchanges sessionId clock emptyState 0 xs).log.Pairwise
      (fun a b => a.created_at < b.created_at) := by
    rw [hlog]
    exact exchangeRows_pairwise sessionId clock (fun x y => x < y) hclock xs 0
  refine ⟨hlog, ?_, ?_, hpw, fun res hres => ordered_read_eq_of_strict hpw hres⟩
  · rw [hspec]; simp [emptyState]
  · intro hne
    rw [hspec]
    simp [emptyState, hne]

theorem run_exchanges_ordering_witness :
    (∀ i j : Nat, i < j → i < j)
    ∧ ((run_exchanges "s1" (fun n => n) emptyState 0
          [("first question", "first answer"), ("second question", "second answer")]).log
        = exchangeRows "s1" (fun n => n) 0
          [("first question", "first answer"), ("second question", "second answer")]
      ∧ (run_exchanges "s1" (fun n => n) emptyState 0
          [("first question", "first answer"), ("second question", "second answer")]).cacheList
        = cacheTurns [("first question", "first answer"), ("second question", "second answer")]
      ∧ ([("first question", "first answer"), ("second question", "second answer")] ≠
          ([] : List (String × String)) →
        (run_exchanges "s1" (fun n => n) emptyState 0
          [("first question", "first answer"), ("second question", "second answer")]).cacheTTL
          = some (60 * 60 * 24 * 30))
      ∧ (run_exchanges "s1" (fun n => n) emptyState 0
          [("first question", "first answer"), ("second question", "second answer")]).log.Pairwise
          (fun a b => a.created_at < b.created_at)
      ∧ (∀ res, ordered_read (run_exchanges "s1" (fun n => n) emptyState 0
            [("first question", "first answer"), ("second question", "second answer")]).log res →
          res = (run_exchanges "s1" (fun n => n) emptyState 0
            [("first question", "first answer"), ("second question", "second answer")]).log)) :=
  ⟨fun _ _ hij => hij,
   run_exchanges_ordering "s1" (fun n => n)
     [("first question", "first answer"), ("second question", "second answer")]
     (fun _ _ hij => hij)⟩

end Astro
